import Mathlib

/-!
Shallow embedding of the carina multi-cloud client (Go), covering:
the `make-coe` ClusterService adapter (`src/make-coe/make-coe.go`) and the
`Client` orchestrator (`src/unnamed/part_001`, package `client`).

Conventions of the embedding:
* Go strings are Lean `String`s; the repository only manipulates ASCII
  status tokens, template names and paths, for which Go's byte indexing and
  Lean's character indexing coincide.
* Fallible Go calls return `Except Err α`.  External collaborators (the
  libcarina backend, the filesystem, the credentials-path resolution helper
  `buildClusterCredentialsPath` which lives outside the given sources) are
  passed in as explicit oracle arguments holding their results.
* The polling loops of `make-coe.go` have no bound in the source; they are
  embedded with the (finite) list of successive `GetCluster` results as the
  oracle, returning `none` when the oracle is exhausted before a terminal
  state, together with the number of fetches performed.
* Side effects that the claims talk about (the deferred
  `Cache.SaveAccount`, the `DeleteClusterCredentials` trigger) are recorded
  as an event trace returned next to the result.
-/

/-- Lower-cases a string character by character, mirroring Go's
`strings.ToLower` on ASCII input. -/
def lowerStr (s : String) : String :=
  String.mk (s.data.map Char.toLower)

/-- Mirrors Go `strings.HasPrefix`. -/
def strStarts (s pre : String) : Bool :=
  List.isPrefixOf pre.data s.data

/-- Mirrors Go `strings.HasSuffix`. -/
def strEnds (s suf : String) : Bool :=
  List.isSuffixOf suf.data s.data

/-- Drops the first `n` characters, mirroring Go's `s[n:]` slicing on ASCII. -/
def strDrop (s : String) (n : Nat) : String :=
  String.mk (s.data.drop n)

/-- Index of the first occurrence of `pat` in `subj` starting from offset `i`. -/
def strIndexAux (pat : List Char) : List Char → Nat → Option Nat
  | subj, i =>
    if List.isPrefixOf pat subj then some i
    else
      match subj with
      | [] => none
      | _ :: rest => strIndexAux pat rest (i + 1)

/-- Mirrors Go `strings.Index` (position of the first occurrence of a
substring, `none` standing for Go's `-1`). -/
def strIndex (subj pat : String) : Option Nat :=
  strIndexAux pat.data subj.data 0

/-- Splits a character list on a separator character; mirrors Go
`strings.Split` with a one-character separator. -/
def splitOnCharAux (sep : Char) : List Char → List (List Char)
  | [] => [[]]
  | c :: rest =>
    let r := splitOnCharAux sep rest
    if c == sep then [] :: r
    else
      match r with
      | h :: t => (c :: h) :: t
      | [] => [[c]]

/-- String-level wrapper of `splitOnCharAux`. -/
def stringSplitOnChar (sep : Char) (s : String) : List String :=
  (splitOnCharAux sep s.data).map String.mk

/-- The loop of the vendored `ryanuber/go-glob` matcher over the parts of
the pattern after the first one: each middle part must occur in what is left
of the subject, the final part must be a suffix (unless the pattern ends in
`*`). -/
def globMatchParts : List String → String → Bool → Bool
  | [], _, trailingGlob => trailingGlob
  | [last], subj, trailingGlob => trailingGlob || strEnds subj last
  | part :: rest, subj, trailingGlob =>
    match strIndex subj part with
    | none => false
    | some idx => globMatchParts rest (strDrop subj (idx + part.length)) trailingGlob

/-- Embedding of the vendored `ryanuber/go-glob` `Glob` function used by
`client.ListClusterTemplates`: `*` matches any run of characters; a pattern
without `*` must equal the subject exactly (case-sensitive). -/
def glob (pattern subj : String) : Bool :=
  if pattern == "" then subj == pattern
  else if pattern == "*" then true
  else
    let parts := stringSplitOnChar '*' pattern
    if parts.length == 1 then subj == pattern
    else
      let leadingGlob := strStarts pattern "*"
      let trailingGlob := strEnds pattern "*"
      match parts with
      | [] => trailingGlob
      | p0 :: rest =>
        match strIndex subj p0 with
        | none => false
        | some idx =>
          if !leadingGlob && idx != 0 then false
          else globMatchParts rest (strDrop subj (idx + p0.length)) trailingGlob

/-- Embedding of the vendored go-glob `GlobI` used by
`MakeCOE.lookupClusterTypeByName`: case-insensitive glob matching, i.e.
`glob` after folding both pattern and subject to lower case (the spec's
"case folded" glob). -/
def globI (pattern subj : String) : Bool :=
  glob (lowerStr pattern) (lowerStr subj)

/-- One step of lexical path cleaning: processes the path components left to
right keeping the surviving components in reverse order, with `..` popping
the previous component (or being kept, resp. dropped, at the start of a
relative, resp. rooted, path).  This is the standard stack formulation of
Go's `path/filepath.Clean` on a Unix separator. -/
def cleanComponentsRec (rooted : Bool) : List String → List String → List String
  | [], acc => acc
  | c :: rest, acc =>
    if c == "" || c == "." then cleanComponentsRec rooted rest acc
    else if c == ".." then
      match acc with
      | [] => cleanComponentsRec rooted rest (if rooted then [] else [".."])
      | top :: accRest =>
        if top == ".." then cleanComponentsRec rooted rest (c :: top :: accRest)
        else cleanComponentsRec rooted rest accRest
    else cleanComponentsRec rooted rest (c :: acc)

/-- Embedding of Go `path/filepath.Clean` (Unix separators), used by
`client.DeleteClusterCredentials` to normalize the credentials path. -/
def filepathClean (p : String) : String :=
  if p == "" then "."
  else
    let rooted := strStarts p "/"
    let comps := cleanComponentsRec rooted (stringSplitOnChar '/' p) []
    let body := String.intercalate "/" comps.reverse
    if rooted then "/" ++ body
    else if body == "" then "." else body

/-- Embedding of Go `path/filepath.Join` for the two-argument use in
`client.DeleteClusterCredentials` (`filepath.Join(p, "ca.pem")`): the
slash-joined concatenation, cleaned. -/
def filepathJoin (a b : String) : String :=
  if a == "" then filepathClean b
  else if b == "" then filepathClean a
  else filepathClean (a ++ "/" ++ b)

/-- Error model.  Go errors in this code base are either typed
`libcarina.HTTPErr` values carrying a status code, plain message errors, or
`pkg/errors` wrappings that decorate a message while preserving the cause. -/
inductive Err where
  | http (statusCode : Nat)
  | other (message : String)
  | wrap (message : String) (cause : Err)
deriving Repr, DecidableEq

/-- Mirrors `errors.Cause`: unwraps `wrap` layers down to the root error. -/
def errCause : Err → Err
  | Err.wrap _ e => errCause e
  | e => e

/-- Mirrors `makecoe.handleNotAcceptable`: wraps the out-of-date-client
remediation text around the error. -/
def handleNotAcceptable (e : Err) : Err :=
  Err.wrap "Unable to communicate with the Carina API because the client is out-of-date. Update the carina client to the latest version." e

/-- Mirrors `makecoe.handleHTTPError`: a 406 status gets the remediation
wrapping, every other status is returned as-is. -/
def handleHTTPError (e : Err) : Err :=
  match e with
  | Err.http 406 => handleNotAcceptable e
  | _ => e

/-- Mirrors `makecoe.handleLibcarinaError`: when the cause is a typed HTTP
error it goes through `handleHTTPError`, otherwise the error is unchanged. -/
def handleLibcarinaError (e : Err) : Err :=
  match errCause e with
  | Err.http code => handleHTTPError (Err.http code)
  | _ => e

/-- Backend-agnostic cluster view (`common.Cluster` / `makecoe.Cluster`
wrapping `libcarina.Cluster`): the fields the given sources read. -/
structure Cluster where
  id : String
  name : String
  status : String
deriving Repr, DecidableEq

/-- The `make-coe` quota object (`makecoe.Quotas`), an empty record. -/
structure Quotas
deriving Repr, DecidableEq

/-- A cluster template (`libcarina.ClusterType`): the fields the given
sources read. -/
structure ClusterType where
  id : Int
  name : String
  coe : String
  hostType : String
deriving Repr, DecidableEq

/-- A credentials bundle (`libcarina.CredentialsBundle`): relative file
names mapped to contents. -/
structure CredentialsBundle where
  files : List (String × String)
deriving Repr, DecidableEq

/-- Account identity handed to the client operations.  Only its presence
matters to the claims; its fields are never inspected by the embedded code. -/
structure Account where
  endpoint : String
  userName : String
  apiKey : String
deriving Repr, DecidableEq

/-- Backend-side effects of a `make-coe` operation that the claims mention:
authenticating (`MakeCOE.init` / `Account.Authenticate`) and issuing a
backend API call. -/
inductive SvcEvent where
  | authenticate
  | backendCall (callName : String)
deriving Repr, DecidableEq

/-- Embedding of `MakeCOE.GetQuotas` (`make-coe.go` lines 54-57): the Go
body is `return &Quotas{}, nil` — it never calls `carina.init()` (so never
authenticates) and issues no backend call, which the empty event trace
records.  (Every other `MakeCOE` operation starts with `carina.init()`,
embedded below as an explicit authentication-outcome oracle.) -/
def MakeCOE.GetQuotas (_carina : Account) : Except Err Quotas × List SvcEvent :=
  (Except.ok {}, [])

/-- Synthesized empty cluster, mirroring `makecoe.newCluster()` wrapping a
zero-valued `libcarina.Cluster`. -/
def newCluster : Cluster :=
  ⟨"", "", ""⟩

/-- Embedding of `MakeCOE.DeleteCluster` (`make-coe.go` lines 176-201).
`auth` is the outcome of `carina.init()` and `rawResult` the outcome of
`carina.client.Delete(token)`.  A typed HTTP 404 cause is converted into a
synthesized cluster with status "deleted" and no error; every other failure
is wrapped and surfaced. -/
def MakeCOE.DeleteCluster (auth : Except Err Unit) (rawResult : Except Err Cluster) :
    Except Err Cluster :=
  match auth with
  | Except.error e => Except.error e
  | Except.ok _ =>
    match rawResult with
    | Except.ok result => Except.ok result
    | Except.error err =>
      match errCause err with
      | Err.http code =>
        if code == 404 then Except.ok { newCluster with status := "deleted" }
        else Except.error (handleLibcarinaError (Err.wrap "[make-coe] Unable to delete cluster" (errCause err)))
      | _ => Except.error (handleLibcarinaError (Err.wrap "[make-coe] Unable to delete cluster" (errCause err)))

/-- The `isDone` closure of `MakeCOE.WaitUntilClusterIsActive`
(`make-coe.go` lines 234-237): the lower-cased status is "active" or
"error". -/
def isDoneActive (c : Cluster) : Bool :=
  let status := lowerStr c.status
  status == "active" || status == "error"

/-- The polling loop of `MakeCOE.WaitUntilClusterIsActive` (`make-coe.go`
lines 244-256), driven by the list of successive `carina.GetCluster`
results.  Returns the loop's outcome (`none` when the oracle list runs out
before a terminal state) and the number of `GetCluster` fetches performed. -/
def waitActiveGo : List (Except Err Cluster) → Option (Except Err Cluster) × Nat
  | [] => (none, 0)
  | f :: rest =>
    match f with
    | Except.error e => (some (Except.error e), 1)
    | Except.ok c =>
      if isDoneActive c then (some (Except.ok c), 1)
      else ((waitActiveGo rest).1, (waitActiveGo rest).2 + 1)

/-- Embedding of `MakeCOE.WaitUntilClusterIsActive` (`make-coe.go` lines
233-257): the cluster passed in is checked first without any fetch; only a
non-terminal status enters the polling loop. -/
def MakeCOE.WaitUntilClusterIsActive (cluster : Cluster)
    (fetches : List (Except Err Cluster)) : Option (Except Err Cluster) × Nat :=
  if isDoneActive cluster then (some (Except.ok cluster), 0)
  else waitActiveGo fetches

/-- The `isDone` closure of `MakeCOE.WaitUntilClusterIsDeleted`
(`make-coe.go` lines 261-267): status "error" terminates with a hard
deletion error, status "deleted" terminates successfully, anything else is
pending. -/
def isDoneDeleted (c : Cluster) : Bool × Option Err :=
  let status := lowerStr c.status
  if status == "error" then
    (true, some (Err.other "Unable to delete cluster, an error occured while deleting."))
  else (status == "deleted", none)

/-- The polling loop of `MakeCOE.WaitUntilClusterIsDeleted` (`make-coe.go`
lines 274-295): a fetch failure whose cause is a typed HTTP 404 counts as
successful deletion, any other fetch failure is returned as-is; a fetched
terminal status returns the `isDone` error (none for "deleted"). -/
def waitDeletedGo : List (Except Err Cluster) → Option (Except Err Unit) × Nat
  | [] => (none, 0)
  | f :: rest =>
    match f with
    | Except.error e =>
      (match errCause e with
       | Err.http code =>
         if code == 404 then (some (Except.ok ()), 1) else (some (Except.error e), 1)
       | _ => (some (Except.error e), 1))
    | Except.ok c =>
      match isDoneDeleted c with
      | (true, some e) => (some (Except.error e), 1)
      | (true, none) => (some (Except.ok ()), 1)
      | (false, _) => ((waitDeletedGo rest).1, (waitDeletedGo rest).2 + 1)

/-- Embedding of `MakeCOE.WaitUntilClusterIsDeleted` (`make-coe.go` lines
260-296): the cluster passed in is checked first without any fetch. -/
def MakeCOE.WaitUntilClusterIsDeleted (cluster : Cluster)
    (fetches : List (Except Err Cluster)) : Option (Except Err Unit) × Nat :=
  match isDoneDeleted cluster with
  | (true, some e) => (some (Except.error e), 0)
  | (true, none) => (some (Except.ok ()), 0)
  | (false, _) => waitDeletedGo fetches

/-- Errors of the template lookup, mirroring the two error values built in
`MakeCOE.lookupClusterTypeByName`: `fmt.Errorf("Could not find template
named %s", pattern)` and `common.MultipleMatchingTemplatesError` carrying
the pattern. -/
inductive TemplateLookupError where
  | notFound (pattern : String)
  | multipleMatchingTemplates (templatePattern : String)
deriving Repr, DecidableEq

/-- The loop of `MakeCOE.lookupClusterTypeByName` (`make-coe.go` lines
330-348): scans the cached template list, keeping the first case-insensitive
glob match and failing as ambiguous as soon as a second one appears; an
empty scan result is a not-found error. -/
def lookupLoop (pattern : String) :
    List ClusterType → Option ClusterType → Except TemplateLookupError ClusterType
  | [], none => Except.error (TemplateLookupError.notFound pattern)
  | [], some ct => Except.ok ct
  | m :: rest, acc =>
    if globI pattern m.name then
      match acc with
      | none => lookupLoop pattern rest (some m)
      | some _ => Except.error (TemplateLookupError.multipleMatchingTemplates pattern)
    else lookupLoop pattern rest acc

/-- Embedding of `MakeCOE.lookupClusterTypeByName` (`make-coe.go` lines
324-349) over a given template cache (the process-lifetime
`clusterTypeCache`; its lazy fetch is presumed successful, the claims being
about resolution over a template set). -/
def MakeCOE.lookupClusterTypeByName (pattern : String) (cache : List ClusterType) :
    Except TemplateLookupError ClusterType :=
  lookupLoop pattern cache none

/-- Client-side effects that the claims mention: the deferred
`client.Cache.SaveAccount(account)` and the call to
`client.DeleteClusterCredentials` made by `Client.DeleteCluster`. -/
inductive Event where
  | saveAccount
  | deleteClusterCredentials
deriving Repr, DecidableEq

/-- The `common.ClusterService` interface as consumed by the `Client`
orchestrator, as a record of operation outcomes (the backend oracle bound to
one account).  `buildContainerService` in the source applies the cache and
constructs this service, never failing. -/
structure ClusterService where
  getQuotas : Except Err Quotas
  createCluster : String → String → Int → Except Err Cluster
  getCluster : String → Except Err Cluster
  listClusters : Except Err (List Cluster)
  listClusterTemplates : Except Err (List ClusterType)
  growCluster : String → Int → Except Err Cluster
  resizeCluster : String → Int → Except Err Cluster
  rebuildCluster : String → Except Err Cluster
  setAutoScale : String → Bool → Except Err Cluster
  deleteCluster : String → Except Err Cluster
  getClusterCredentials : String → Except Err CredentialsBundle
  waitUntilClusterIsActive : Cluster → Except Err Cluster
  waitUntilClusterIsDeleted : Cluster → Except Err Unit

/-- Embedding of `Client.GetQuotas` (`part_001` lines 92-101).  The event
trace ends with `saveAccount`: the deferred `client.Cache.SaveAccount`
registered on entry runs on every exit path. -/
def Client.GetQuotas (svc : ClusterService) : Except Err Quotas × List Event :=
  (svc.getQuotas, [Event.saveAccount])

/-- Embedding of `Client.CreateCluster` (`part_001` lines 104-118): create,
then optionally wait until active when the caller asked for it and creation
succeeded; the deferred save runs on every exit path. -/
def Client.CreateCluster (svc : ClusterService) (name template : String) (nodes : Int)
    (waitUntilActive : Bool) : Except Err Cluster × List Event :=
  let body : Except Err Cluster :=
    match svc.createCluster name template nodes with
    | Except.error e => Except.error e
    | Except.ok cluster =>
      if waitUntilActive then svc.waitUntilClusterIsActive cluster else Except.ok cluster
  (body, [Event.saveAccount])

/-- Embedding of `Client.DownloadClusterCredentials` (`part_001` lines
121-155).  `credPath` is the outcome of `buildClusterCredentialsPath` (not
among the given sources) and `writeOk` the combined outcome of the
directory-creation and file-write calls; the deferred save runs on every
exit path. -/
def Client.DownloadClusterCredentials (svc : ClusterService) (name : String)
    (credPath : Except Err String) (writeOk : Except Err Unit) :
    Except Err String × List Event :=
  let body : Except Err String :=
    match svc.getClusterCredentials name with
    | Except.error e => Except.error e
    | Except.ok _ =>
      match credPath with
      | Except.error e => Except.error (Err.wrap "Unable to save downloaded cluster credentials" e)
      | Except.ok p =>
        match writeOk with
        | Except.error e => Except.error e
        | Except.ok _ => Except.ok p
  (body, [Event.saveAccount])

/-- Stands for the shell-integration text generation (`sourceHelpString`,
an external collaborator per the spec's out-of-scope list); its content is
irrelevant to the claims. -/
def sourceHelpString (shellScriptPath name shell : String) : String :=
  "source " ++ shellScriptPath ++ " # " ++ name ++ " " ++ shell

/-- Embedding of `Client.GetSourceCommand` (`part_001` lines 158-182).
Unlike the other client operations it registers no deferred save.
`credPath0` is the (error-ignored) resolved credentials path, `credsValid`
the outcome of `creds.Verify()` on the loaded bundle, `getScriptPath` the
outcome of `getCredentialScriptPath` for a given credentials path, and
`credPath`/`writeOk` feed the re-download when verification failed. -/
def Client.GetSourceCommand (svc : ClusterService) (shell name : String)
    (credPath0 : String) (credsValid : Bool)
    (getScriptPath : String → Except Err String)
    (credPath : Except Err String) (writeOk : Except Err Unit) :
    Except Err String × List Event :=
  if credsValid then
    match getScriptPath credPath0 with
    | Except.error e => (Except.error e, [])
    | Except.ok shellScriptPath => (Except.ok (sourceHelpString shellScriptPath name shell), [])
  else
    let dl := Client.DownloadClusterCredentials svc name credPath writeOk
    match dl.1 with
    | Except.error e => (Except.error e, dl.2)
    | Except.ok credentialsPath =>
      match getScriptPath credentialsPath with
      | Except.error e => (Except.error e, dl.2)
      | Except.ok shellScriptPath =>
        (Except.ok (sourceHelpString shellScriptPath name shell), dl.2)

/-- Embedding of `Client.ListClusters` (`part_001` lines 185-194). -/
def Client.ListClusters (svc : ClusterService) : Except Err (List Cluster) × List Event :=
  (svc.listClusters, [Event.saveAccount])

/-- Embedding of `Client.ListClusterTemplates` (`part_001` lines 197-219):
on success and with a non-empty name filter, keeps the templates whose name
matches the filter under the case-sensitive `glob.Glob`. -/
def Client.ListClusterTemplates (svc : ClusterService) (nameFilter : String) :
    Except Err (List ClusterType) × List Event :=
  let body : Except Err (List ClusterType) :=
    match svc.listClusterTemplates with
    | Except.error e => Except.error e
    | Except.ok templates =>
      if nameFilter != "" then
        Except.ok (templates.filter (fun template => glob nameFilter template.name))
      else Except.ok templates
  (body, [Event.saveAccount])

/-- Embedding of `Client.GetCluster` (`part_001` lines 222-236). -/
def Client.GetCluster (svc : ClusterService) (name : String) (waitUntilActive : Bool) :
    Except Err Cluster × List Event :=
  let body : Except Err Cluster :=
    match svc.getCluster name with
    | Except.error e => Except.error e
    | Except.ok cluster =>
      if waitUntilActive then svc.waitUntilClusterIsActive cluster else Except.ok cluster
  (body, [Event.saveAccount])

/-- Embedding of `Client.GrowCluster` (`part_001` lines 239-253). -/
def Client.GrowCluster (svc : ClusterService) (name : String) (nodes : Int)
    (waitUntilActive : Bool) : Except Err Cluster × List Event :=
  let body : Except Err Cluster :=
    match svc.growCluster name nodes with
    | Except.error e => Except.error e
    | Except.ok cluster =>
      if waitUntilActive then svc.waitUntilClusterIsActive cluster else Except.ok cluster
  (body, [Event.saveAccount])

/-- Embedding of `Client.ResizeCluster` (`part_001` lines 256-270). -/
def Client.ResizeCluster (svc : ClusterService) (name : String) (nodes : Int)
    (waitUntilActive : Bool) : Except Err Cluster × List Event :=
  let body : Except Err Cluster :=
    match svc.resizeCluster name nodes with
    | Except.error e => Except.error e
    | Except.ok cluster =>
      if waitUntilActive then svc.waitUntilClusterIsActive cluster else Except.ok cluster
  (body, [Event.saveAccount])

/-- Embedding of `Client.RebuildCluster` (`part_001` lines 273-287). -/
def Client.RebuildCluster (svc : ClusterService) (name : String)
    (waitUntilActive : Bool) : Except Err Cluster × List Event :=
  let body : Except Err Cluster :=
    match svc.rebuildCluster name with
    | Except.error e => Except.error e
    | Except.ok cluster =>
      if waitUntilActive then svc.waitUntilClusterIsActive cluster else Except.ok cluster
  (body, [Event.saveAccount])

/-- Embedding of `Client.SetAutoScale` (`part_001` lines 290-299). -/
def Client.SetAutoScale (svc : ClusterService) (name : String) (value : Bool) :
    Except Err Cluster × List Event :=
  (svc.setAutoScale name value, [Event.saveAccount])

/-- Embedding of `Client.DeleteCluster` (`part_001` lines 302-320): delete,
optionally wait until deleted, and on success call
`client.DeleteClusterCredentials` (recorded as the
`deleteClusterCredentials` event, its outcome the oracle `credDel`); the
deferred save runs last on every exit path. -/
def Client.DeleteCluster (svc : ClusterService) (name : String) (waitUntilDeleted : Bool)
    (credDel : Except Err Unit) : Except Err Unit × List Event :=
  let step : Except Err Cluster :=
    match svc.deleteCluster name with
    | Except.error e => Except.error e
    | Except.ok cluster =>
      if waitUntilDeleted then
        match svc.waitUntilClusterIsDeleted cluster with
        | Except.error e => Except.error e
        | Except.ok _ => Except.ok cluster
      else Except.ok cluster
  match step with
  | Except.error e => (Except.error e, [Event.saveAccount])
  | Except.ok _ =>
    (match credDel with
     | Except.error e => Except.error e
     | Except.ok _ => Except.ok (),
     [Event.deleteClusterCredentials, Event.saveAccount])

/-- Mirrors `os.RemoveAll p` over the filesystem model (the list of paths
`os.Stat` would find): removes `p` and everything below it. -/
def removeAll (fs : List String) (p : String) : List String :=
  fs.filter (fun q => !(q == p || strStarts q (p ++ "/")))

/-- Embedding of `Client.DeleteClusterCredentials` (`part_001` lines
323-353).  `credPath` is the outcome of `buildClusterCredentialsPath` (not
among the given sources, so quantified over) and `fs` the filesystem model;
returns the operation's outcome and the filesystem afterwards. -/
def Client.DeleteClusterCredentials (credPath : Except Err String)
    (fs : List String) : Except Err Unit × List String :=
  match credPath with
  | Except.error e => (Except.error e, fs)
  | Except.ok p0 =>
    let p := filepathClean p0
    if p == "" || p == "." || p == "/" then
      (Except.error (Err.other "Path to cluster is empty, the current directory, or a root path, not deleting"), fs)
    else if !(fs.contains p) then
      (Except.ok (), fs)
    else if !(fs.contains (filepathJoin p "ca.pem")) then
      (Except.error (Err.other "Path to cluster credentials exists but not the ca.pem, not deleting"), fs)
    else
      (Except.ok (), removeAll fs p)

/-- A ClusterService oracle with inert outcomes, used to instantiate client
operations at concrete inputs. -/
def svcEmpty : ClusterService where
  getQuotas := Except.ok {}
  createCluster := fun _ _ _ => Except.error (Err.other "unused")
  getCluster := fun _ => Except.error (Err.other "unused")
  listClusters := Except.ok []
  listClusterTemplates := Except.ok []
  growCluster := fun _ _ => Except.error (Err.other "unused")
  resizeCluster := fun _ _ => Except.error (Err.other "unused")
  rebuildCluster := fun _ => Except.error (Err.other "unused")
  setAutoScale := fun _ _ => Except.error (Err.other "unused")
  deleteCluster := fun _ => Except.error (Err.other "unused")
  getClusterCredentials := fun _ => Except.ok ⟨[]⟩
  waitUntilClusterIsActive := fun c => Except.ok c
  waitUntilClusterIsDeleted := fun _ => Except.ok ()

/-- The make-coe service as the `Client` sees it when the backend answers
`DeleteCluster` with a typed HTTP 404: `deleteCluster` is
`MakeCOE.DeleteCluster` over that outcome (after successful
authentication), and `waitUntilClusterIsDeleted` is the make-coe polling
machine over the fetch oracle `fetches` (`getD` turns the embedded
loop's within-oracle outcome into the interface's, never reached here
because the synthesized cluster is already terminal). -/
def svc404 (fetches : List (Except Err Cluster)) : ClusterService :=
  { svcEmpty with
    deleteCluster := fun _ =>
      MakeCOE.DeleteCluster (Except.ok ()) (Except.error (Err.http 404)),
    waitUntilClusterIsDeleted := fun c =>
      ((MakeCOE.WaitUntilClusterIsDeleted c fetches).1).getD
        (Except.error (Err.other "polling did not terminate within the oracle")) }

/-- A service whose template listing succeeds with the given template set. -/
def svcWithTemplates (templates : List ClusterType) : ClusterService :=
  { svcEmpty with listClusterTemplates := Except.ok templates }

theorem lookupLoop_none_of_filter_nil (pattern : String) (cache : List ClusterType)
    (h : cache.filter (fun m => globI pattern m.name) = []) :
    lookupLoop pattern cache none = Except.error (TemplateLookupError.notFound pattern) := by
  induction cache with
  | nil => rfl
  | cons m rest ih =>
    rw [List.filter_cons] at h
    by_cases hm : globI pattern m.name
    · simp [hm] at h
    · simp only [hm, if_neg, Bool.false_eq_true, reduceIte] at h
      simpa [lookupLoop, hm] using ih h

theorem lookupLoop_some_of_filter_nil (pattern : String) (cache : List ClusterType)
    (ct : ClusterType) (h : cache.filter (fun m => globI pattern m.name) = []) :
    lookupLoop pattern cache (some ct) = Except.ok ct := by
  induction cache with
  | nil => rfl
  | cons m rest ih =>
    rw [List.filter_cons] at h
    by_cases hm : globI pattern m.name
    · simp [hm] at h
    · simp only [hm, Bool.false_eq_true, reduceIte] at h
      simpa [lookupLoop, hm] using ih h

theorem lookupLoop_some_of_filter_cons (pattern : String) (cache : List ClusterType)
    (ct t1 : ClusterType) (ts : List ClusterType)
    (h : cache.filter (fun m => globI pattern m.name) = t1 :: ts) :
    lookupLoop pattern cache (some ct)
      = Except.error (TemplateLookupError.multipleMatchingTemplates pattern) := by
  induction cache generalizing t1 ts with
  | nil => simp at h
  | cons m rest ih =>
    rw [List.filter_cons] at h
    by_cases hm : globI pattern m.name
    · simp [lookupLoop, hm]
    · simp only [hm, Bool.false_eq_true, reduceIte] at h
      simpa [lookupLoop, hm] using ih t1 ts h

theorem lookupLoop_none_of_filter_one (pattern : String) (cache : List ClusterType)
    (t : ClusterType) (h : cache.filter (fun m => globI pattern m.name) = [t]) :
    lookupLoop pattern cache none = Except.ok t := by
  induction cache with
  | nil => simp at h
  | cons m rest ih =>
    rw [List.filter_cons] at h
    by_cases hm : globI pattern m.name
    · simp only [hm, reduceIte, List.cons.injEq] at h
      obtain ⟨rfl, hrest⟩ := h
      simpa [lookupLoop, hm] using lookupLoop_some_of_filter_nil pattern rest m hrest
    · simp only [hm, Bool.false_eq_true, reduceIte] at h
      simpa [lookupLoop, hm] using ih h

theorem lookupLoop_none_of_filter_two (pattern : String) (cache : List ClusterType)
    (t1 t2 : ClusterType) (ts : List ClusterType)
    (h : cache.filter (fun m => globI pattern m.name) = t1 :: t2 :: ts) :
    lookupLoop pattern cache none
      = Except.error (TemplateLookupError.multipleMatchingTemplates pattern) := by
  induction cache generalizing t1 t2 ts with
  | nil => simp at h
  | cons m rest ih =>
    rw [List.filter_cons] at h
    by_cases hm : globI pattern m.name
    · simp only [hm, reduceIte, List.cons.injEq] at h
      obtain ⟨rfl, hrest⟩ := h
      simpa [lookupLoop, hm] using
        lookupLoop_some_of_filter_cons pattern rest m t2 ts hrest
    · simp only [hm, Bool.false_eq_true, reduceIte] at h
      simpa [lookupLoop, hm] using ih t1 t2 ts h

/-- C4: template resolution matches the pattern case-insensitively
(`globI`) against every template name; zero matches yield the not-found
error naming the pattern, a unique match is returned, and two or more
matches always yield the ambiguous-template error naming the pattern, never
one of the matches.  The closing conjuncts check the spec's example set
{Kubernetes-Small, Kubernetes-Large, Swarm-Small} and the
case-insensitivity example. -/
theorem claim_C4_template_resolution :
    (∀ pattern cache, cache.filter (fun m => globI pattern m.name) = [] →
        MakeCOE.lookupClusterTypeByName pattern cache
          = Except.error (TemplateLookupError.notFound pattern)) ∧
    (∀ pattern cache t, cache.filter (fun m => globI pattern m.name) = [t] →
        MakeCOE.lookupClusterTypeByName pattern cache = Except.ok t) ∧
    (∀ pattern cache t1 t2 ts,
        cache.filter (fun m => globI pattern m.name) = t1 :: t2 :: ts →
        MakeCOE.lookupClusterTypeByName pattern cache
          = Except.error (TemplateLookupError.multipleMatchingTemplates pattern)) ∧
    MakeCOE.lookupClusterTypeByName "Kubernetes*"
        [⟨1, "Kubernetes-Small", "kubernetes", "vm"⟩, ⟨2, "Kubernetes-Large", "kubernetes", "vm"⟩,
         ⟨3, "Swarm-Small", "swarm", "vm"⟩]
      = Except.error (TemplateLookupError.multipleMatchingTemplates "Kubernetes*") ∧
    MakeCOE.lookupClusterTypeByName "Kubernetes-S*"
        [⟨1, "Kubernetes-Small", "kubernetes", "vm"⟩, ⟨2, "Kubernetes-Large", "kubernetes", "vm"⟩,
         ⟨3, "Swarm-Small", "swarm", "vm"⟩]
      = Except.ok ⟨1, "Kubernetes-Small", "kubernetes", "vm"⟩ ∧
    MakeCOE.lookupClusterTypeByName "Nonexistent*"
        [⟨1, "Kubernetes-Small", "kubernetes", "vm"⟩, ⟨2, "Kubernetes-Large", "kubernetes", "vm"⟩,
         ⟨3, "Swarm-Small", "swarm", "vm"⟩]
      = Except.error (TemplateLookupError.notFound "Nonexistent*") ∧
    MakeCOE.lookupClusterTypeByName "kubernetes-small"
        [⟨1, "Kubernetes-Small", "kubernetes", "vm"⟩]
      = Except.ok ⟨1, "Kubernetes-Small", "kubernetes", "vm"⟩ := by
  refine ⟨?_, ?_, ?_, by rfl, by rfl, by rfl, by rfl⟩
  · intro pattern cache h
    exact lookupLoop_none_of_filter_nil pattern cache h
  · intro pattern cache t h
    exact lookupLoop_none_of_filter_one pattern cache t h
  · intro pattern cache t1 t2 ts h
    exact lookupLoop_none_of_filter_two pattern cache t1 t2 ts h

theorem isDoneActive_iff (c : Cluster) :
    isDoneActive c = true ↔ (lowerStr c.status = "active" ∨ lowerStr c.status = "error") := by
  simp [isDoneActive]

theorem waitActiveGo_ok (fetches : List (Except Err Cluster)) (c : Cluster)
    (h : (waitActiveGo fetches).1 = some (Except.ok c)) : isDoneActive c = true := by
  induction fetches with
  | nil => simp [waitActiveGo] at h
  | cons f rest ih =>
    cases f with
    | error e => simp [waitActiveGo] at h
    | ok c0 =>
      by_cases hd : isDoneActive c0
      · simp only [waitActiveGo, hd, reduceIte, Option.some.injEq, Except.ok.injEq] at h
        rwa [← h]
      · simp only [waitActiveGo, hd, Bool.false_eq_true, reduceIte] at h
        exact ih h

theorem waitActiveGo_error (fetches : List (Except Err Cluster)) (e : Err)
    (h : (waitActiveGo fetches).1 = some (Except.error e)) : Except.error e ∈ fetches := by
  induction fetches with
  | nil => simp [waitActiveGo] at h
  | cons f rest ih =>
    cases f with
    | error e0 =>
      simp only [waitActiveGo, Option.some.injEq, Except.error.injEq] at h
      simp [h]
    | ok c0 =>
      by_cases hd : isDoneActive c0
      · simp [waitActiveGo, hd] at h
      · simp only [waitActiveGo, hd, Bool.false_eq_true, reduceIte] at h
        exact List.mem_cons_of_mem _ (ih h)

/-- C6: the wait-until-active machine terminates with a cluster value only
when that cluster's lower-cased status is "active" or "error" (first
conjunct), terminates with an error only when some fetch produced that
error (second conjunct), and a fetched "error"-status cluster is returned
as a success value, not as a failure (third conjunct). -/
theorem claim_C6_wait_active_terminal :
    (∀ cluster fetches c,
        (MakeCOE.WaitUntilClusterIsActive cluster fetches).1 = some (Except.ok c) →
        lowerStr c.status = "active" ∨ lowerStr c.status = "error") ∧
    (∀ cluster fetches e,
        (MakeCOE.WaitUntilClusterIsActive cluster fetches).1 = some (Except.error e) →
        Except.error e ∈ fetches) ∧
    (∀ cluster c rest, isDoneActive cluster = false → lowerStr c.status = "error" →
        MakeCOE.WaitUntilClusterIsActive cluster (Except.ok c :: rest)
          = (some (Except.ok c), 1)) := by
  refine ⟨?_, ?_, ?_⟩
  · intro cluster fetches c h
    rw [← isDoneActive_iff]
    by_cases hd : isDoneActive cluster
    · simp only [MakeCOE.WaitUntilClusterIsActive, hd, reduceIte, Option.some.injEq,
        Except.ok.injEq] at h
      rwa [← h]
    · simp only [MakeCOE.WaitUntilClusterIsActive, hd, Bool.false_eq_true, reduceIte] at h
      exact waitActiveGo_ok fetches c h
  · intro cluster fetches e h
    by_cases hd : isDoneActive cluster
    · simp [MakeCOE.WaitUntilClusterIsActive, hd] at h
    · simp only [MakeCOE.WaitUntilClusterIsActive, hd, Bool.false_eq_true, reduceIte] at h
      exact waitActiveGo_error fetches e h
  · intro cluster c rest hpend herr
    have hc : isDoneActive c = true := (isDoneActive_iff c).mpr (Or.inr herr)
    simp [MakeCOE.WaitUntilClusterIsActive, waitActiveGo, hpend, hc]

theorem isDoneActive_building (i n : String) : isDoneActive ⟨i, n, "building"⟩ = false := by
  rfl

theorem isDoneActive_activeLower (i n : String) : isDoneActive ⟨i, n, "active"⟩ = true := by
  rfl

/-- C5: with the initial snapshot in status "building" and the successive
`GetCluster` fetches returning "building" then "active", the machine
performs exactly two fetches and returns the "active" cluster (first
conjunct: the spec's observed-status sequence ["building", "building",
"active"] — initial snapshot plus two re-fetches).  Under the other reading
of the sentence, in which all three statuses are fetch results, exactly
`1 + 2` fetches are performed — one initial fetch and two re-fetches —
before the "active" cluster is returned (second conjunct).  Either way the
loop stops at the first terminal status and performs no further fetch. -/
theorem claim_C5_polling_termination :
    (∀ i n i2 n2 i3 n3,
        MakeCOE.WaitUntilClusterIsActive ⟨i, n, "building"⟩
            [Except.ok ⟨i2, n2, "building"⟩, Except.ok ⟨i3, n3, "active"⟩]
          = (some (Except.ok ⟨i3, n3, "active"⟩), 2)) ∧
    (∀ i n i2 n2 i3 n3 i4 n4,
        MakeCOE.WaitUntilClusterIsActive ⟨i, n, "building"⟩
            [Except.ok ⟨i2, n2, "building"⟩, Except.ok ⟨i3, n3, "building"⟩,
             Except.ok ⟨i4, n4, "active"⟩]
          = (some (Except.ok ⟨i4, n4, "active"⟩), 1 + 2)) := by
  constructor
  · intro i n i2 n2 i3 n3
    simp [MakeCOE.WaitUntilClusterIsActive, waitActiveGo, isDoneActive_building,
      isDoneActive_activeLower]
  · intro i n i2 n2 i3 n3 i4 n4
    simp [MakeCOE.WaitUntilClusterIsActive, waitActiveGo, isDoneActive_building,
      isDoneActive_activeLower]

/-- C8: a cluster whose status already folds to "active" is returned
unchanged with zero `GetCluster` fetches performed, whatever results
further fetches would have produced; the closing conjunct exercises the
mixed-case status "Active". -/
theorem claim_C8_wait_active_idempotent :
    (∀ cluster fetches, lowerStr cluster.status = "active" →
        MakeCOE.WaitUntilClusterIsActive cluster fetches = (some (Except.ok cluster), 0)) ∧
    MakeCOE.WaitUntilClusterIsActive ⟨"id1", "c1", "Active"⟩ [Except.ok ⟨"id1", "c1", "building"⟩]
      = (some (Except.ok ⟨"id1", "c1", "Active"⟩), 0) := by
  constructor
  · intro cluster fetches h
    have hc : isDoneActive cluster = true := (isDoneActive_iff cluster).mpr (Or.inl h)
    simp [MakeCOE.WaitUntilClusterIsActive, hc]
  · rfl

/-- C7: starting from a pending cluster, a `GetCluster` failure whose cause
is a typed HTTP 404 makes the deletion wait succeed after that single
fetch; a fetched cluster whose status folds to "error" makes it fail with
the deletion error after that single fetch; any fetch failure with another
cause is returned as-is after that single fetch — never retried.  The
closing conjunct exercises a 404 wrapped by the `GetCluster` error
decoration. -/
theorem claim_C7_wait_deleted_fetch_outcomes :
    (∀ cluster e rest, (isDoneDeleted cluster).1 = false → errCause e = Err.http 404 →
        MakeCOE.WaitUntilClusterIsDeleted cluster (Except.error e :: rest)
          = (some (Except.ok ()), 1)) ∧
    (∀ cluster e rest, (isDoneDeleted cluster).1 = false →
        (∀ code, errCause e = Err.http code → code ≠ 404) →
        MakeCOE.WaitUntilClusterIsDeleted cluster (Except.error e :: rest)
          = (some (Except.error e), 1)) ∧
    (∀ cluster c rest, (isDoneDeleted cluster).1 = false → lowerStr c.status = "error" →
        MakeCOE.WaitUntilClusterIsDeleted cluster (Except.ok c :: rest)
          = (some (Except.error
              (Err.other "Unable to delete cluster, an error occured while deleting.")), 1)) ∧
    MakeCOE.WaitUntilClusterIsDeleted ⟨"id1", "c1", "deleting"⟩
        [Except.error (Err.wrap "[make-coe] Unable to retrieve cluster (id1)" (Err.http 404))]
      = (some (Except.ok ()), 1) := by
  refine ⟨?_, ?_, ?_, by rfl⟩
  · intro cluster e rest hpend h404
    have hI : isDoneDeleted cluster = (false, (isDoneDeleted cluster).2) := by
      rw [← hpend]
    rw [MakeCOE.WaitUntilClusterIsDeleted, hI]
    simp [waitDeletedGo, h404]
  · intro cluster e rest hpend hother
    have hI : isDoneDeleted cluster = (false, (isDoneDeleted cluster).2) := by
      rw [← hpend]
    rw [MakeCOE.WaitUntilClusterIsDeleted, hI]
    cases hec : errCause e with
    | http code =>
      have : code ≠ 404 := hother code hec
      simp [waitDeletedGo, hec, this]
    | other msg => simp [waitDeletedGo, hec]
    | wrap msg cause => simp [waitDeletedGo, hec]
  · intro cluster c rest hpend herr
    have hI : isDoneDeleted cluster = (false, (isDoneDeleted cluster).2) := by
      rw [← hpend]
    have hc : isDoneDeleted c
        = (true, some (Err.other "Unable to delete cluster, an error occured while deleting.")) := by
      simp [isDoneDeleted, herr]
    rw [MakeCOE.WaitUntilClusterIsDeleted, hI]
    simp [waitDeletedGo, hc]

/-- C2: a backend `DeleteCluster` failure whose cause is a typed HTTP 404
is converted by `MakeCOE.DeleteCluster` into a success carrying the
synthesized cluster with status "deleted" (first two conjuncts, the second
for an arbitrary wrapping of the 404), and the `Client` delete operation on
such a service goes on to trigger `DeleteClusterCredentials`, for either
value of the wait-until-deleted flag, whatever the credential deletion's
own outcome and whatever the polling oracle (third conjunct); the fourth
conjunct records that the client-visible delete step itself produced the
synthesized "deleted" cluster and no error. -/
theorem claim_C2_delete_not_found :
    MakeCOE.DeleteCluster (Except.ok ()) (Except.error (Err.http 404))
      = Except.ok ⟨"", "", "deleted"⟩ ∧
    (∀ e, errCause e = Err.http 404 →
        MakeCOE.DeleteCluster (Except.ok ()) (Except.error e)
          = Except.ok { newCluster with status := "deleted" }) ∧
    (∀ name waitUntilDeleted fetches credDel,
        Event.deleteClusterCredentials ∈
          (Client.DeleteCluster (svc404 fetches) name waitUntilDeleted credDel).2) ∧
    (∀ name fetches, (svc404 fetches).deleteCluster name = Except.ok ⟨"", "", "deleted"⟩) := by
  refine ⟨by rfl, ?_, ?_, fun name fetches => by rfl⟩
  · intro e h404
    simp [MakeCOE.DeleteCluster, h404]
  · intro name waitUntilDeleted fetches credDel
    have hdel : (svc404 fetches).deleteCluster name = Except.ok ⟨"", "", "deleted"⟩ := rfl
    have hwait : (svc404 fetches).waitUntilClusterIsDeleted ⟨"", "", "deleted"⟩
        = Except.ok () := rfl
    cases waitUntilDeleted <;>
      cases credDel <;>
        simp [Client.DeleteCluster, hdel, hwait]

/-- C3: `DeleteClusterCredentials`, over any resolved path and any
filesystem state: when the cleaned path is "", "." or "/" it refuses with
an error and leaves the filesystem untouched; otherwise a missing path is a
successful no-op, a present path without the `ca.pem` marker is an error
with the filesystem untouched, and a present path with the marker is
recursively removed.  A failed path resolution also returns the error with
the filesystem untouched (fifth conjunct); the last conjunct exercises a
path that only normalization reveals as the root. -/
theorem claim_C3_delete_credentials_safety :
    (∀ p0 fs, (filepathClean p0 = "" ∨ filepathClean p0 = "." ∨ filepathClean p0 = "/") →
        Client.DeleteClusterCredentials (Except.ok p0) fs
          = (Except.error (Err.other
              "Path to cluster is empty, the current directory, or a root path, not deleting"),
             fs)) ∧
    (∀ p0 fs, ¬(filepathClean p0 = "" ∨ filepathClean p0 = "." ∨ filepathClean p0 = "/") →
        filepathClean p0 ∉ fs →
        Client.DeleteClusterCredentials (Except.ok p0) fs = (Except.ok (), fs)) ∧
    (∀ p0 fs, ¬(filepathClean p0 = "" ∨ filepathClean p0 = "." ∨ filepathClean p0 = "/") →
        filepathClean p0 ∈ fs →
        filepathJoin (filepathClean p0) "ca.pem" ∉ fs →
        Client.DeleteClusterCredentials (Except.ok p0) fs
          = (Except.error (Err.other
              "Path to cluster credentials exists but not the ca.pem, not deleting"), fs)) ∧
    (∀ p0 fs, ¬(filepathClean p0 = "" ∨ filepathClean p0 = "." ∨ filepathClean p0 = "/") →
        filepathClean p0 ∈ fs →
        filepathJoin (filepathClean p0) "ca.pem" ∈ fs →
        Client.DeleteClusterCredentials (Except.ok p0) fs
          = (Except.ok (), removeAll fs (filepathClean p0))) ∧
    (∀ e fs, Client.DeleteClusterCredentials (Except.error e) fs = (Except.error e, fs)) ∧
    Client.DeleteClusterCredentials (Except.ok "/creds/c1/../..")
        ["/creds/c1", "/creds/c1/ca.pem"]
      = (Except.error (Err.other
          "Path to cluster is empty, the current directory, or a root path, not deleting"),
         ["/creds/c1", "/creds/c1/ca.pem"]) := by
  refine ⟨?_, ?_, ?_, ?_, fun e fs => rfl, by rfl⟩
  · intro p0 fs hbad
    have hb : (filepathClean p0 == "" || filepathClean p0 == "."
        || filepathClean p0 == "/") = true := by
      rcases hbad with h | h | h <;> simp [h]
    simp [Client.DeleteClusterCredentials, hb]
  · intro p0 fs hgood habsent
    have hb : (filepathClean p0 == "" || filepathClean p0 == "."
        || filepathClean p0 == "/") = false := by
      push_neg at hgood
      simp [hgood.1, hgood.2.1, hgood.2.2]
    simp [Client.DeleteClusterCredentials, hb, habsent]
  · intro p0 fs hgood hpresent hnoca
    have hb : (filepathClean p0 == "" || filepathClean p0 == "."
        || filepathClean p0 == "/") = false := by
      push_neg at hgood
      simp [hgood.1, hgood.2.1, hgood.2.2]
    simp [Client.DeleteClusterCredentials, hb, hpresent, hnoca]
  · intro p0 fs hgood hpresent hca
    have hb : (filepathClean p0 == "" || filepathClean p0 == "."
        || filepathClean p0 == "/") = false := by
      push_neg at hgood
      simp [hgood.1, hgood.2.1, hgood.2.2]
    simp [Client.DeleteClusterCredentials, hb, hpresent, hca]

/-- C9: the client's template listing filters with the case-sensitive
`glob.Glob` (first conjunct: the survivors are exactly the names matching
the filter case-sensitively), so the filter "kubernetes-small" excludes the
template named "Kubernetes-Small" (second and third conjuncts) even though
template resolution's case-folded matcher accepts that very pair (last two
conjuncts). -/
theorem claim_C9_list_templates_case_sensitive :
    (∀ templates nameFilter, nameFilter ≠ "" →
        (Client.ListClusterTemplates (svcWithTemplates templates) nameFilter).1
          = Except.ok (templates.filter (fun template => glob nameFilter template.name))) ∧
    (Client.ListClusterTemplates
        (svcWithTemplates [⟨1, "Kubernetes-Small", "kubernetes", "vm"⟩]) "kubernetes-small").1
      = Except.ok [] ∧
    glob "kubernetes-small" "Kubernetes-Small" = false ∧
    globI "kubernetes-small" "Kubernetes-Small" = true ∧
    MakeCOE.lookupClusterTypeByName "kubernetes-small"
        [⟨1, "Kubernetes-Small", "kubernetes", "vm"⟩]
      = Except.ok ⟨1, "Kubernetes-Small", "kubernetes", "vm"⟩ := by
  refine ⟨?_, by rfl, by rfl, by rfl, by rfl⟩
  intro templates nameFilter h
  have hne : (nameFilter != "") = true := by simpa using h
  simp [Client.ListClusterTemplates, svcWithTemplates, svcEmpty, hne]

/-- C10: `MakeCOE.GetQuotas` returns the empty quota value and no error
for every account, and its event trace is empty: it neither authenticates
(`init` is never called) nor issues any backend call. -/
theorem claim_C10_get_quotas_stub :
    (∀ account : Account, MakeCOE.GetQuotas account = (Except.ok {}, [])) ∧
    (∀ account : Account, SvcEvent.authenticate ∉ (MakeCOE.GetQuotas account).2) ∧
    (∀ (account : Account) (callName : String),
        SvcEvent.backendCall callName ∉ (MakeCOE.GetQuotas account).2) := by
  refine ⟨fun account => rfl, ?_, ?_⟩
  · intro account
    simp [MakeCOE.GetQuotas]
  · intro account callName
    simp [MakeCOE.GetQuotas]

/-- C1 (amended): every client operation that registers the deferred
`client.Cache.SaveAccount` — GetQuotas, CreateCluster,
DownloadClusterCredentials, ListClusters, ListClusterTemplates, GetCluster,
GrowCluster, ResizeCluster, RebuildCluster, SetAutoScale and DeleteCluster
— has `saveAccount` in its event trace on every exit path, for every
backend outcome (first eleven conjuncts).  `GetSourceCommand` is the
exception: it registers no deferred save; it saves exactly when the
credentials bundle fails verification, through the nested
`DownloadClusterCredentials` call (twelfth conjunct), and never saves when
the bundle verifies (thirteenth conjunct). -/
theorem claim_C1_save_account_amended :
    (∀ svc : ClusterService, Event.saveAccount ∈ (Client.GetQuotas svc).2) ∧
    (∀ (svc : ClusterService) name template nodes waitUntilActive,
        Event.saveAccount ∈ (Client.CreateCluster svc name template nodes waitUntilActive).2) ∧
    (∀ (svc : ClusterService) name credPath writeOk,
        Event.saveAccount ∈ (Client.DownloadClusterCredentials svc name credPath writeOk).2) ∧
    (∀ svc : ClusterService, Event.saveAccount ∈ (Client.ListClusters svc).2) ∧
    (∀ (svc : ClusterService) nameFilter,
        Event.saveAccount ∈ (Client.ListClusterTemplates svc nameFilter).2) ∧
    (∀ (svc : ClusterService) name waitUntilActive,
        Event.saveAccount ∈ (Client.GetCluster svc name waitUntilActive).2) ∧
    (∀ (svc : ClusterService) name nodes waitUntilActive,
        Event.saveAccount ∈ (Client.GrowCluster svc name nodes waitUntilActive).2) ∧
    (∀ (svc : ClusterService) name nodes waitUntilActive,
        Event.saveAccount ∈ (Client.ResizeCluster svc name nodes waitUntilActive).2) ∧
    (∀ (svc : ClusterService) name waitUntilActive,
        Event.saveAccount ∈ (Client.RebuildCluster svc name waitUntilActive).2) ∧
    (∀ (svc : ClusterService) name value,
        Event.saveAccount ∈ (Client.SetAutoScale svc name value).2) ∧
    (∀ (svc : ClusterService) name waitUntilDeleted credDel,
        Event.saveAccount ∈ (Client.DeleteCluster svc name waitUntilDeleted credDel).2) ∧
    (∀ (svc : ClusterService) shell name credPath0 getScriptPath credPath writeOk,
        Event.saveAccount ∈
          (Client.GetSourceCommand svc shell name credPath0 false getScriptPath
            credPath writeOk).2) ∧
    (∀ (svc : ClusterService) shell name credPath0 getScriptPath credPath writeOk,
        Event.saveAccount ∉
          (Client.GetSourceCommand svc shell name credPath0 true getScriptPath
            credPath writeOk).2) := by
  refine ⟨fun svc => by simp [Client.GetQuotas],
    fun svc name template nodes w => by simp [Client.CreateCluster],
    fun svc name credPath writeOk => by simp [Client.DownloadClusterCredentials],
    fun svc => by simp [Client.ListClusters],
    fun svc nameFilter => by simp [Client.ListClusterTemplates],
    fun svc name w => by simp [Client.GetCluster],
    fun svc name nodes w => by simp [Client.GrowCluster],
    fun svc name nodes w => by simp [Client.ResizeCluster],
    fun svc name w => by simp [Client.RebuildCluster],
    fun svc name value => by simp [Client.SetAutoScale],
    ?_, ?_, ?_⟩
  · intro svc name waitUntilDeleted credDel
    simp only [Client.DeleteCluster]
    split <;> simp
  · intro svc shell name credPath0 getScriptPath credPath writeOk
    rw [Client.GetSourceCommand]
    simp only [Bool.false_eq_true, reduceIte]
    split
    · simp [Client.DownloadClusterCredentials]
    · split <;> simp [Client.DownloadClusterCredentials]
  · intro svc shell name credPath0 getScriptPath credPath writeOk
    rw [Client.GetSourceCommand]
    simp only [reduceIte]
    split <;> simp

/-- C1 (counterexample): the claim "the Cache's SaveAccount is invoked on
every exit path of every client operation" fails at `GetSourceCommand`: at
this concrete input — a cluster whose credentials bundle is present and
verifies — the operation completes successfully with an empty event trace,
so no `saveAccount` occurs on that exit path. -/
theorem claim_C1_counterexample :
    Event.saveAccount ∉
      (Client.GetSourceCommand svcEmpty "bash" "mycluster"
        "/home/u/.carina/clusters/u/mycluster" true
        (fun p => Except.ok (p ++ "/docker.env"))
        (Except.ok "/home/u/.carina/clusters/u/mycluster") (Except.ok ())).2 ∧
    (Client.GetSourceCommand svcEmpty "bash" "mycluster"
        "/home/u/.carina/clusters/u/mycluster" true
        (fun p => Except.ok (p ++ "/docker.env"))
        (Except.ok "/home/u/.carina/clusters/u/mycluster") (Except.ok ())).1
      = Except.ok (sourceHelpString "/home/u/.carina/clusters/u/mycluster/docker.env"
          "mycluster" "bash") := by
  constructor
  · intro h
    simp [Client.GetSourceCommand] at h
  · rfl
